import Mathlib

/-!
Shallow embedding of `src/random_raindrop.py` (RaindropManager and main).

The remote API is modelled as an oracle: a fixed response for the
raindrops request of each collection id and a fixed response for the
collections request.  An `Except Unit` response models the request (or
the JSON decode of its body) raising an exception.  Each operation
returns its result together with a `Trace`: the network requests it
issued, in order, and the log lines it appended to the log file.  The
cache file is modelled as a state value threaded explicitly: absent,
present-but-unparsable, or a parsed record of a timestamp (seconds) and
an article list.  Time is an integer number of seconds.  JSON item
fields that the code reads with a default (`title`, `link`) are
`Option String`, `none` meaning the key is missing; collection `_id`
fields are modelled as integers (a missing `_id` never arises in any
claim).  The bearer token is `Option String`: `none` models an unset
environment variable, and Python's truthiness test `if not token` also
rejects the empty string.
-/

/-- An article as built by `get_raindrop_articles`. -/
structure Article where
  title : String
  url : String
  source : String
deriving DecidableEq, Repr

/-- A collection entry as built by `get_collections`. -/
structure Collection where
  id : Int
  title : String
deriving DecidableEq, Repr

/-- One item of the raindrops response body. -/
structure RaindropItem where
  title : Option String
  link : Option String
deriving DecidableEq, Repr

/-- One item of the collections response body. -/
structure CollectionItem where
  cid : Int
  title : Option String
deriving DecidableEq, Repr

/-- A network request the program can issue. -/
inductive Request where
  | raindrops : Int → Request
  | collections : Request
deriving DecidableEq, Repr

/-- The remote API oracle: the response each request would get. -/
structure Network where
  raindrops : Int → Except Unit (List RaindropItem)
  collections : Except Unit (List CollectionItem)

/-- Requests issued and log lines written, in order. -/
structure Trace where
  reqs : List Request
  logs : List String
deriving DecidableEq, Repr

def Trace.append (a b : Trace) : Trace :=
  ⟨a.reqs ++ b.reqs, a.logs ++ b.logs⟩

/-- The cache file's state. -/
inductive CacheFile where
  | absent : CacheFile
  | corrupt : CacheFile
  | record : Int → List Article → CacheFile
deriving DecidableEq, Repr

/-- The constant `CACHE_DURATION = 300`. -/
def CACHE_DURATION : Int := 300

/-- Python truthiness of the token: `if not self.raindrop_token` skips
the fetch when the variable is unset or the empty string. -/
def tokenOk : Option String → Bool
  | none => false
  | some s => !(s == "")

/-- Embedding of `get_collections`: on missing token return `[]`; on a successful
response map each item to a collection (title defaulting to
"Untitled Collection") and append the synthetic all-bookmarks entry;
on an exception log and return just the synthetic entry. -/
def get_collections (net : Network) (tok : Option String) :
    List Collection × Trace :=
  if tokenOk tok then
    match net.collections with
    | .ok items =>
        (items.map (fun item => ⟨item.cid, item.title.getD "Untitled Collection"⟩)
          ++ [⟨0, "All Bookmarks"⟩], ⟨[.collections], []⟩)
    | .error _ =>
        ([⟨0, "All Bookmarks"⟩], ⟨[.collections], ["Collections error"]⟩)
  else ([], ⟨[], []⟩)

/-- Embedding of `get_collection_name`: id 0 maps to a fixed label; otherwise fetch
the collections and linearly scan for the id, defaulting to the fixed
label when absent. -/
def get_collection_name (net : Network) (tok : Option String) (cid : Int) :
    String × Trace :=
  if cid == 0 then ("Raindrop.io", ⟨[], []⟩)
  else
    let r := get_collections net tok
    match r.1.find? (fun c => c.id == cid) with
    | some c => ("Raindrop (" ++ c.title ++ ")", r.2)
    | none => ("Raindrop.io", r.2)

/-- One iteration of the item loop of `get_raindrop_articles`: read the
title (default "Untitled") and the link (default ""); when both are
non-empty, resolve the display name and append the article. -/
def item_step (net : Network) (tok : Option String) (cid : Int)
    (acc : List Article × Trace) (item : RaindropItem) : List Article × Trace :=
  let title := item.title.getD "Untitled"
  let url := item.link.getD ""
  if url ≠ "" ∧ title ≠ "" then
    let r := get_collection_name net tok cid
    (acc.1 ++ [⟨title, url, r.1⟩], acc.2.append r.2)
  else acc

/-- Embedding of `get_raindrop_articles`: on missing token return `[]` with no
request; issue the raindrops request; on an exception log and return
`[]`; otherwise run the item loop over the response items. -/
def get_raindrop_articles (net : Network) (tok : Option String)
    (cid : Int) : List Article × Trace :=
  if tokenOk tok then
    match net.raindrops cid with
    | .ok items => items.foldl (item_step net tok cid) ([], ⟨[.raindrops cid], []⟩)
    | .error _ => ([], ⟨[.raindrops cid], ["Raindrop.io error"]⟩)
  else ([], ⟨[], []⟩)

/-- Embedding of `load_cache`: the articles of a parsed record whose timestamp is
within the freshness window; anything else (missing file, unparsable
record, stale timestamp) yields `none`. -/
def load_cache (now : Int) (file : CacheFile) : Option (List Article) :=
  match file with
  | .record ts articles => if now - ts < CACHE_DURATION then some articles else none
  | _ => none

/-- Embedding of `save_cache`: overwrite the record with the current timestamp and
the given list. -/
def save_cache (now : Int) (articles : List Article) : CacheFile :=
  .record now articles

/-- The truthy cache read of `get_all_articles`: the cached list when
`load_cache` returns one and it is non-empty. -/
def cached_nonempty (now : Int) (file : CacheFile) : Option (List Article) :=
  match load_cache now file with
  | some l => if l ≠ [] then some l else none
  | none => none

/-- One iteration of the collection loop of `get_all_articles`: skip the
all-bookmarks id, otherwise fetch that collection's articles and extend. -/
def merge_step (net : Network) (tok : Option String)
    (acc : List Article × Trace) (c : Collection) : List Article × Trace :=
  if c.id ≠ 0 then
    let r := get_raindrop_articles net tok c.id
    (acc.1 ++ r.1, acc.2.append r.2)
  else acc

/-- Embedding of `get_all_articles`: return the fresh non-empty cached list unless
forcing; otherwise fetch the default collection's articles, fetch the
collection list, loop over its first five entries, save the merge when
non-empty, and return it.  The result carries the new cache-file state
and the trace. -/
def get_all_articles (net : Network) (tok : Option String) (now : Int)
    (file : CacheFile) (force_refresh : Bool) :
    List Article × CacheFile × Trace :=
  match (if force_refresh then none else cached_nonempty now file) with
  | some l => (l, file, ⟨[], []⟩)
  | none =>
    let r0 := get_raindrop_articles net tok 0
    let rc := get_collections net tok
    let m := (rc.1.take 5).foldl (merge_step net tok) (r0.1, r0.2.append rc.2)
    let file2 := if m.1 ≠ [] then save_cache now m.1 else file
    (m.1, file2, m.2)

/-- Embedding of `main`: get the articles, print a random article's url, or the
literal `No articles found` when the list is empty.  `k` models the
random draw: `random.choice` picks the element at some index below the
length, embedded as `k % length`. -/
def main_run (net : Network) (tok : Option String) (now : Int)
    (file : CacheFile) (k : Nat) : String × CacheFile :=
  let r := get_all_articles net tok now file false
  match r.1 with
  | [] => ("No articles found", r.2.1)
  | _ => ((r.1.getD (k % r.1.length) ⟨"", "", ""⟩).url, r.2.1)

/-- A concrete oracle for witnesses: the default collection 0 and the
user collection 7 each answer three items, and the collections request
answers the single user collection 7. -/
def netDemo : Network :=
  ⟨fun cid =>
    if cid == 0 then
      .ok [⟨some "t1", some "u1"⟩, ⟨some "t2", some "u2"⟩, ⟨some "t3", some "u3"⟩]
    else if cid == 7 then
      .ok [⟨some "s1", some "v1"⟩, ⟨some "s2", some "v2"⟩, ⟨some "s3", some "v3"⟩]
    else .error (),
   .ok [⟨7, some "Work"⟩]⟩

/-- A concrete oracle on which every request raises. -/
def netFail : Network := ⟨fun _ => .error (), .error ()⟩

/-- A concrete oracle whose raindrops response mixes a fully formed
item, an item with a missing link, an item with an empty link, and an
item with a missing title. -/
def netMixed : Network :=
  ⟨fun _ =>
    .ok [⟨some "good", some "https://g"⟩, ⟨some "nolink", none⟩,
         ⟨some "emptylink", some ""⟩, ⟨none, some "https://n"⟩],
   .ok []⟩

/-- An article used by cache-round-trip witnesses. -/
def artA : Article := ⟨"a", "https://a", "Raindrop.io"⟩

/-- The article list of the collection loop is the starting list
followed by the articles of each collection with nonzero id, in order. -/
theorem merge_fold_articles (net : Network) (tok : Option String)
    (l : List Collection) (init : List Article) (tr : Trace) :
    (l.foldl (merge_step net tok) (init, tr)).1 =
      init ++ (l.filter (fun c => c.id ≠ 0)).flatMap
        (fun c => (get_raindrop_articles net tok c.id).1) := by
  induction l generalizing init tr with
  | nil => simp
  | cons c l ih =>
    simp only [List.foldl_cons, List.filter_cons]
    by_cases h : c.id = 0
    · simp [merge_step, h, ih]
    · simp [merge_step, h, ih, List.append_assoc]

/-- The requests of the collection loop are the starting requests
followed by the requests of each fetch of a collection with nonzero id,
in order. -/
theorem merge_fold_reqs (net : Network) (tok : Option String)
    (l : List Collection) (init : List Article) (tr : Trace) :
    (l.foldl (merge_step net tok) (init, tr)).2.reqs =
      tr.reqs ++ (l.filter (fun c => c.id ≠ 0)).flatMap
        (fun c => (get_raindrop_articles net tok c.id).2.reqs) := by
  induction l generalizing init tr with
  | nil => simp
  | cons c l ih =>
    simp only [List.foldl_cons, List.filter_cons]
    by_cases h : c.id = 0
    · simp [merge_step, h, ih]
    · simp [merge_step, h, ih, Trace.append, List.append_assoc]

/-- Any article the item loop appends has a non-empty url and a
non-empty title. -/
theorem item_step_mem (net : Network) (tok : Option String) (cid : Int)
    (acc : List Article × Trace) (item : RaindropItem) (a : Article)
    (h : a ∈ (item_step net tok cid acc item).1) :
    a ∈ acc.1 ∨ (a.url ≠ "" ∧ a.title ≠ "") := by
  simp only [item_step] at h
  split at h
  · rename_i hc
    rcases List.mem_append.1 h with h1 | h2
    · exact Or.inl h1
    · simp only [List.mem_singleton] at h2
      subst h2
      exact Or.inr ⟨hc.1, hc.2⟩
  · exact Or.inl h

/-- Any article of the item loop's result was in the accumulator or has
a non-empty url and a non-empty title. -/
theorem item_fold_mem (net : Network) (tok : Option String) (cid : Int)
    (items : List RaindropItem) (acc : List Article × Trace) (a : Article)
    (h : a ∈ (items.foldl (item_step net tok cid) acc).1) :
    a ∈ acc.1 ∨ (a.url ≠ "" ∧ a.title ≠ "") := by
  induction items generalizing acc with
  | nil => exact Or.inl h
  | cons item rest ih =>
    simp only [List.foldl_cons] at h
    rcases ih _ h with h1 | h2
    · exact item_step_mem net tok cid acc item a h1
    · exact Or.inr h2

/-- A truthy cache read comes from a parsed record holding that same
non-empty list. -/
theorem cached_nonempty_record (now : Int) (file : CacheFile)
    (l : List Article) (h : cached_nonempty now file = some l) :
    (∃ ts, file = CacheFile.record ts l) ∧ l ≠ [] := by
  cases file with
  | absent => simp [cached_nonempty, load_cache] at h
  | corrupt => simp [cached_nonempty, load_cache] at h
  | record ts as =>
    by_cases ht : now - ts < CACHE_DURATION
    · by_cases hne : as = []
      · subst hne
        simp [cached_nonempty, load_cache, ht] at h
      · have hc : cached_nonempty now (CacheFile.record ts as) = some as := by
          simp [cached_nonempty, load_cache, ht, hne]
        rw [hc] at h
        injection h with h
        subst h
        exact ⟨⟨ts, rfl⟩, hne⟩
    · simp [cached_nonempty, load_cache, ht] at h

/-- Claim C2: with `force_refresh` false, when the cache read yields a
non-empty article list, `get_all_articles` returns that list unchanged,
leaves the cache file as it is, issues no request and writes no log. -/
theorem get_all_articles_cache_hit (net : Network) (tok : Option String)
    (now : Int) (file : CacheFile) (l : List Article)
    (hl : load_cache now file = some l) (hne : l ≠ []) :
    get_all_articles net tok now file false = (l, file, ⟨[], []⟩) := by
  have hc : cached_nonempty now file = some l := by
    simp [cached_nonempty, hl, hne]
  simp [get_all_articles, hc]

theorem get_all_articles_cache_hit_witness :
    load_cache 160 (CacheFile.record 100 [artA]) = some [artA] ∧
    [artA] ≠ [] ∧
    get_all_articles netDemo (some "tkn") 160 (CacheFile.record 100 [artA]) false =
      ([artA], CacheFile.record 100 [artA], ⟨[], []⟩) :=
  ⟨by decide, by decide,
    get_all_articles_cache_hit netDemo (some "tkn") 160
      (CacheFile.record 100 [artA]) [artA] (by decide) (by decide)⟩

/-- Claim C3: `load_cache` returns a stored list exactly when the file
holds a parsed record with that list and a timestamp within the
300-second window; whenever it yields nothing (stale, missing or
unparsable record), `get_all_articles` behaves as a forced refresh,
that is, performs the fresh fetch sequence. -/
theorem load_cache_valid_iff (net : Network) (tok : Option String)
    (now : Int) (file : CacheFile) (l : List Article) :
    (load_cache now file = some l ↔
      ∃ ts, file = CacheFile.record ts l ∧ now - ts < CACHE_DURATION) ∧
    (load_cache now file = none →
      get_all_articles net tok now file false =
        get_all_articles net tok now file true) := by
  constructor
  · cases file with
    | absent => simp [load_cache]
    | corrupt => simp [load_cache]
    | record ts as =>
      by_cases ht : now - ts < CACHE_DURATION
      · simp only [load_cache, if_pos ht, Option.some.injEq,
          CacheFile.record.injEq]
        constructor
        · intro h
          exact ⟨ts, ⟨rfl, h⟩, ht⟩
        · rintro ⟨ts2, ⟨hts, hl⟩, h2⟩
          exact hl
      · simp only [load_cache, if_neg ht]
        constructor
        · intro h
          simp at h
        · rintro ⟨ts2, hts, h2⟩
          injection hts with e1 e2
          subst e1
          exact (ht h2).elim
  · intro h
    have hc : cached_nonempty now file = none := by
      simp [cached_nonempty, h]
    simp [get_all_articles, hc]

/-- Claim C4: saving a list and loading it back within the 300-second
freshness window returns the same list. -/
theorem save_load_roundtrip (X : List Article) (saveT loadT : Int)
    (_h1 : 0 ≤ loadT - saveT) (h2 : loadT - saveT < CACHE_DURATION) :
    load_cache loadT (save_cache saveT X) = some X := by
  simp [save_cache, load_cache, h2]

theorem save_load_roundtrip_witness :
    0 ≤ (400 : Int) - 200 ∧ (400 : Int) - 200 < CACHE_DURATION ∧
    load_cache 400 (save_cache 200 [artA]) = some [artA] :=
  ⟨by decide, by decide, save_load_roundtrip [artA] 200 400 (by decide) (by decide)⟩

/-- Characterisation of the fetch path of `get_all_articles`, shared by
the theorems below: on a cache miss or a forced refresh the result is
the default-collection articles followed by the per-collection merges,
the requests come in fetch order, and the cache file ends up holding
the merge exactly when the merge is non-empty. -/
theorem get_all_articles_fetch_spec (net : Network) (tok : Option String)
    (now : Int) (file : CacheFile) (fr : Bool)
    (h : fr = true ∨ cached_nonempty now file = none) :
    (get_all_articles net tok now file fr).1 =
      (get_raindrop_articles net tok 0).1 ++
        (((get_collections net tok).1.take 5).filter (fun c => c.id ≠ 0)).flatMap
          (fun c => (get_raindrop_articles net tok c.id).1) ∧
    (get_all_articles net tok now file fr).2.2.reqs =
      (get_raindrop_articles net tok 0).2.reqs ++
        (get_collections net tok).2.reqs ++
        (((get_collections net tok).1.take 5).filter (fun c => c.id ≠ 0)).flatMap
          (fun c => (get_raindrop_articles net tok c.id).2.reqs) ∧
    (get_all_articles net tok now file fr).2.1 =
      (if (get_all_articles net tok now file fr).1 = [] then file
       else save_cache now (get_all_articles net tok now file fr).1) := by
  have hnone : (if fr then none else cached_nonempty now file) =
      (none : Option (List Article)) := by
    rcases h with h | h
    · simp [h]
    · simp [h]
  rw [get_all_articles, hnone]
  simp only
  refine ⟨merge_fold_articles net tok _ _ _, ?_, ?_⟩
  · rw [merge_fold_reqs net tok _ _ _]
    simp [Trace.append, List.append_assoc]
  · rw [merge_fold_articles net tok _ _ _]
    rcases eq_or_ne ((get_raindrop_articles net tok 0).1 ++
        (((get_collections net tok).1.take 5).filter (fun c => c.id ≠ 0)).flatMap
          (fun c => (get_raindrop_articles net tok c.id).1)) [] with hm | hm
    · rw [if_neg (not_not_intro hm), if_pos hm]
    · rw [if_pos hm, if_neg hm]

/-- Claim C1: on a cache miss or a forced refresh, `get_all_articles`
returns the default collection articles followed by the articles of
each of the first five listed collections whose id is nonzero, in
order; its requests are the default-collection fetch, then the
collection-list fetch, then the per-collection fetches; and the cache
file ends up holding the merge exactly when the merge is non-empty. -/
theorem get_all_articles_fetch_path (net : Network) (tok : Option String)
    (now : Int) (file : CacheFile) (fr : Bool)
    (h : fr = true ∨ cached_nonempty now file = none) :
    (get_all_articles net tok now file fr).1 =
      (get_raindrop_articles net tok 0).1 ++
        (((get_collections net tok).1.take 5).filter (fun c => c.id ≠ 0)).flatMap
          (fun c => (get_raindrop_articles net tok c.id).1) ∧
    (get_all_articles net tok now file fr).2.2.reqs =
      (get_raindrop_articles net tok 0).2.reqs ++
        (get_collections net tok).2.reqs ++
        (((get_collections net tok).1.take 5).filter (fun c => c.id ≠ 0)).flatMap
          (fun c => (get_raindrop_articles net tok c.id).2.reqs) ∧
    (get_all_articles net tok now file fr).2.1 =
      (if (get_all_articles net tok now file fr).1 = [] then file
       else save_cache now (get_all_articles net tok now file fr).1) :=
  get_all_articles_fetch_spec net tok now file fr h

theorem get_all_articles_fetch_path_witness :
    cached_nonempty 1000 CacheFile.absent = none ∧
    ((get_all_articles netDemo (some "tkn") 1000 CacheFile.absent false).1 =
      (get_raindrop_articles netDemo (some "tkn") 0).1 ++
        (((get_collections netDemo (some "tkn")).1.take 5).filter
            (fun c => c.id ≠ 0)).flatMap
          (fun c => (get_raindrop_articles netDemo (some "tkn") c.id).1) ∧
     (get_all_articles netDemo (some "tkn") 1000 CacheFile.absent false).2.2.reqs =
      (get_raindrop_articles netDemo (some "tkn") 0).2.reqs ++
        (get_collections netDemo (some "tkn")).2.reqs ++
        (((get_collections netDemo (some "tkn")).1.take 5).filter
            (fun c => c.id ≠ 0)).flatMap
          (fun c => (get_raindrop_articles netDemo (some "tkn") c.id).2.reqs) ∧
     (get_all_articles netDemo (some "tkn") 1000 CacheFile.absent false).2.1 =
      (if (get_all_articles netDemo (some "tkn") 1000 CacheFile.absent false).1 = []
       then CacheFile.absent
       else save_cache 1000
         (get_all_articles netDemo (some "tkn") 1000 CacheFile.absent false).1)) ∧
    (get_all_articles netDemo (some "tkn") 1000 CacheFile.absent false).1.length = 6 ∧
    (get_all_articles netDemo (some "tkn") 1000 CacheFile.absent false).2.1 =
      CacheFile.record 1000
        (get_all_articles netDemo (some "tkn") 1000 CacheFile.absent false).1 :=
  ⟨rfl,
   get_all_articles_fetch_path netDemo (some "tkn") 1000 CacheFile.absent false
     (Or.inr rfl),
   by decide, by decide⟩

/-- Claim C10: on a cache miss the merged list keeps order: the default
collection's articles first, then, for each collection among the first
five of the collection list whose id is nonzero and in that list's
order, that collection's articles in response order. -/
theorem get_all_articles_order (net : Network) (tok : Option String)
    (now : Int) (file : CacheFile)
    (h : cached_nonempty now file = none) :
    (get_all_articles net tok now file false).1 =
      (get_raindrop_articles net tok 0).1 ++
        (List.map (fun c => (get_raindrop_articles net tok c.id).1)
          (((get_collections net tok).1.take 5).filter
            (fun c => c.id ≠ 0))).flatten := by
  rw [get_all_articles]
  rw [show (if false then none else cached_nonempty now file) = none from h]
  simp only
  rw [merge_fold_articles net tok _ _ _, List.flatMap_def]

theorem get_all_articles_order_witness :
    cached_nonempty 1000 CacheFile.corrupt = none ∧
    (get_all_articles netDemo (some "tkn") 1000 CacheFile.corrupt false).1 =
      (get_raindrop_articles netDemo (some "tkn") 0).1 ++
        (List.map (fun c => (get_raindrop_articles netDemo (some "tkn") c.id).1)
          (((get_collections netDemo (some "tkn")).1.take 5).filter
            (fun c => c.id ≠ 0))).flatten :=
  ⟨rfl, get_all_articles_order netDemo (some "tkn") 1000 CacheFile.corrupt rfl⟩

/-- Claim C5: with a usable token, a failing collections request makes
`get_collections` return exactly the synthetic all-bookmarks entry,
while a successful one returns the user-defined collections with the
synthetic entry appended after them. -/
theorem get_collections_failure_synthetic (net : Network)
    (tok : Option String) (htok : tokenOk tok = true) :
    (net.collections = .error () → (get_collections net tok).1 =
      [⟨0, "All Bookmarks"⟩]) ∧
    (∀ items, net.collections = .ok items → (get_collections net tok).1 =
      items.map (fun item => ⟨item.cid, item.title.getD "Untitled Collection"⟩)
        ++ [⟨0, "All Bookmarks"⟩]) := by
  constructor
  · intro h
    simp [get_collections, htok, h]
  · intro items h
    simp [get_collections, htok, h]

theorem get_collections_failure_synthetic_witness :
    tokenOk (some "tkn") = true ∧
    ((netFail.collections = .error () → (get_collections netFail (some "tkn")).1 =
        [⟨0, "All Bookmarks"⟩]) ∧
     (∀ items, netFail.collections = .ok items →
        (get_collections netFail (some "tkn")).1 =
          items.map (fun item =>
            ⟨item.cid, item.title.getD "Untitled Collection"⟩)
            ++ [⟨0, "All Bookmarks"⟩])) ∧
    (get_collections netFail (some "tkn")).1 = [⟨0, "All Bookmarks"⟩] :=
  ⟨rfl, get_collections_failure_synthetic netFail (some "tkn") rfl, by decide⟩

/-- Claim C6: with no usable bearer token, both fetch operations return
the empty list, issue no request and write no log. -/
theorem no_token_no_network (net : Network) (tok : Option String)
    (cid : Int) (h : tokenOk tok = false) :
    get_raindrop_articles net tok cid = ([], ⟨[], []⟩) ∧
    get_collections net tok = ([], ⟨[], []⟩) := by
  constructor
  · simp [get_raindrop_articles, h]
  · simp [get_collections, h]

theorem no_token_no_network_witness :
    tokenOk none = false ∧
    (get_raindrop_articles netDemo none 0 = ([], ⟨[], []⟩) ∧
     get_collections netDemo none = ([], ⟨[], []⟩)) :=
  ⟨rfl, no_token_no_network netDemo none 0 rfl⟩

/-- Claim C7 counterexample: with no bearer token configured — the
auth-absent failure of the spec's taxonomy — `get_raindrop_articles`
does return the empty list, but it writes no log line at all, so this
failure is not "logged to the side-channel log file" as claimed. -/
theorem get_raindrop_articles_authabsent_unlogged :
    tokenOk none = false ∧
    (get_raindrop_articles netDemo none 0).1 = [] ∧
    (get_raindrop_articles netDemo none 0).2.logs = [] := by
  refine ⟨rfl, rfl, rfl⟩

/-- Claim C7 (amended): `get_raindrop_articles` always returns a plain
list, never an exception: with a usable token, a failing request or
decode yields the empty list plus one log line; an absent token yields
the empty list with no request and no log line; a successful response
with zero items yields the empty list. -/
theorem get_raindrop_articles_fail_soft (net : Network)
    (tok : Option String) (cid : Int) :
    (tokenOk tok = true → net.raindrops cid = .error () →
      get_raindrop_articles net tok cid =
        ([], ⟨[.raindrops cid], ["Raindrop.io error"]⟩)) ∧
    (tokenOk tok = false → get_raindrop_articles net tok cid = ([], ⟨[], []⟩)) ∧
    (net.raindrops cid = .ok [] → (get_raindrop_articles net tok cid).1 = []) := by
  refine ⟨?_, ?_, ?_⟩
  · intro htok h
    simp [get_raindrop_articles, htok, h]
  · intro htok
    simp [get_raindrop_articles, htok]
  · intro h
    by_cases htok : tokenOk tok = true
    · simp [get_raindrop_articles, htok, h]
    · simp [get_raindrop_articles, htok]

/-- Claim C8: when the list `get_all_articles` returns is empty the
cache file is left unchanged and `main` prints the literal
`No articles found`; when it is non-empty the cache file ends up
holding exactly that list. -/
theorem empty_merge_no_write (net : Network) (tok : Option String)
    (now : Int) (file : CacheFile) (k : Nat) :
    ((get_all_articles net tok now file false).1 = [] →
      (get_all_articles net tok now file false).2.1 = file ∧
      (main_run net tok now file k).1 = "No articles found") ∧
    ((get_all_articles net tok now file false).1 ≠ [] →
      ∃ ts, (get_all_articles net tok now file false).2.1 =
        CacheFile.record ts (get_all_articles net tok now file false).1) := by
  rcases hc : cached_nonempty now file with _ | l
  · have hfetch := get_all_articles_fetch_spec net tok now file false (Or.inr hc)
    constructor
    · intro hres
      constructor
      · rw [hfetch.2.2, if_pos hres]
      · simp only [main_run]
        rw [hres]
    · intro hres
      refine ⟨now, ?_⟩
      rw [hfetch.2.2, if_neg hres, save_cache]
  · obtain ⟨⟨ts, hfile⟩, hne⟩ := cached_nonempty_record now file l hc
    have hres : get_all_articles net tok now file false = (l, file, ⟨[], []⟩) := by
      rw [get_all_articles]
      rw [show (if false then none else cached_nonempty now file) = some l from hc]
    constructor
    · intro habs
      rw [hres] at habs
      exact absurd habs hne
    · intro _
      refine ⟨ts, ?_⟩
      rw [hres, hfile]

/-- Claim C9: every article `get_raindrop_articles` returns has a
non-empty url and a non-empty title: items without a usable link are
dropped and a missing title falls back to the non-empty default. -/
theorem get_raindrop_articles_fields_nonempty (net : Network)
    (tok : Option String) (cid : Int) (a : Article)
    (h : a ∈ (get_raindrop_articles net tok cid).1) :
    a.url ≠ "" ∧ a.title ≠ "" := by
  rw [get_raindrop_articles] at h
  split at h
  · cases hq : net.raindrops cid with
    | ok items =>
      rw [hq] at h
      rcases item_fold_mem net tok cid items
          ([], ⟨[Request.raindrops cid], []⟩) a h with h1 | h2
      · simp at h1
      · exact h2
    | error e =>
      rw [hq] at h
      simp at h
  · simp at h

theorem get_raindrop_articles_fields_nonempty_witness :
    (Article.mk "good" "https://g" "Raindrop.io") ∈
      (get_raindrop_articles netMixed (some "tkn") 0).1 ∧
    ((Article.mk "good" "https://g" "Raindrop.io").url ≠ "" ∧
     (Article.mk "good" "https://g" "Raindrop.io").title ≠ "") :=
  ⟨by decide,
   get_raindrop_articles_fields_nonempty netMixed (some "tkn") 0
     (Article.mk "good" "https://g" "Raindrop.io") (by decide)⟩
